import Mathlib

/-!
Verification of the fantoccini WebDriver client (src/lib.rs) against its
natural-language specification.  The Rust code is shallowly embedded below:
pure decision logic becomes Lean functions, the HTTP transport and the
remote browser become explicit oracle parameters, and every Rust panic
(unwrap / expect / unreachable / unimplemented) is modelled by the value
`none` of an `Option`-typed result, so that a panicking execution is
distinguishable from every returning execution.
-/

namespace Fantoccini

/-- JSON values, mirroring rustc_serialize::json::Json
(I64 / U64 / F64 / String / Boolean / Null / Array / Object).
The F64 payload is abstracted to an integer: no claim inspects a float,
the constructor exists only so that the shape of the type matches. -/
inductive Json where
  | null
  | boolean (b : Bool)
  | i64 (n : Int)
  | u64 (n : Nat)
  | f64 (n : Int)
  | str (s : String)
  | arr (xs : List Json)
  | obj (kvs : List (String × Json))

/-- Lookup in a JSON object, mirroring BTreeMap get / index. -/
def lookupKey : List (String × Json) → String → Option Json
  | [], _ => none
  | (k, v) :: rest, key => if k = key then some v else lookupKey rest key

/-- Key-removal in a JSON object, mirroring BTreeMap::remove. -/
def removeKey : List (String × Json) → String → List (String × Json)
  | [], _ => []
  | (k, v) :: rest, key =>
    if k = key then removeKey rest key else (k, v) :: removeKey rest key

/-- Key-membership in a JSON object, mirroring BTreeMap::contains_key. -/
def containsKey (kvs : List (String × Json)) (key : String) : Bool :=
  (lookupKey kvs key).isSome

/-- Insertion into a JSON object, mirroring BTreeMap::insert (key order is
irrelevant to every lookup-based fact proved below). -/
def insertKey (kvs : List (String × Json)) (key : String) (v : Json) :
    List (String × Json) :=
  removeKey kvs key ++ [(key, v)]

/-- Json::is_null. -/
def Json.isNull : Json → Bool
  | .null => true
  | _ => false

/-- Json::as_string. -/
def Json.asString : Json → Option String
  | .str s => some s
  | _ => none

/-- Json::as_object. -/
def Json.asObject : Json → Option (List (String × Json))
  | .obj kvs => some kvs
  | _ => none

/-- Json::as_boolean. -/
def Json.asBool : Json → Option Bool
  | .boolean b => some b
  | _ => none

/-- Json::is_object. -/
def Json.isObject : Json → Bool
  | .obj _ => true
  | _ => false

/-- Json::is_array. -/
def Json.isArray : Json → Bool
  | .arr _ => true
  | _ => false

/-- Contiguous occurrence of a character pattern in a character list. -/
def charsContain (pat : List Char) : List Char → Bool
  | [] => List.isPrefixOf pat []
  | c :: rest => List.isPrefixOf pat (c :: rest) || charsContain pat rest

/-- Rust str::contains, as infix search on the character list. -/
def strContains (s pat : String) : Bool :=
  charsContain pat.toList s.toList

/-- Rust str::starts_with, as prefix test on the character list. -/
def strStartsWith (s pre : String) : Bool :=
  List.isPrefixOf pre.toList s.toList

/-- webdriver::error::ErrorStatus, restricted to the variants lib.rs
constructs (the full upstream enum has more, none of which this crate
ever produces). -/
inductive ErrorStatus where
  | elementClickIntercepted
  | elementNotSelectable
  | elementNotInteractable
  | insecureCertificate
  | invalidArgument
  | invalidCookieDomain
  | invalidCoordinates
  | invalidElementState
  | invalidSelector
  | noSuchAlert
  | noSuchFrame
  | noSuchWindow
  | staleElementReference
  | unknownCommand
  | noSuchCookie
  | invalidSessionId
  | noSuchElement
  | javascriptError
  | moveTargetOutOfBounds
  | sessionNotCreated
  | unableToSetCookie
  | unableToCaptureScreen
  | unexpectedAlertOpen
  | unknownError
  | unsupportedOperation
  | timeout
  | scriptTimeout
  | unknownMethod
deriving DecidableEq, Repr

/-- webdriver::error::WebDriverError: a classified status plus message. -/
structure WebDriverError where
  error : ErrorStatus
  message : String
deriving DecidableEq, Repr

/-- Modelled from the spec: error::CmdError lives in the crate module
src/error.rs, which is not part of the sources given; its variants are
reconstructed from the spec taxonomy (CommandError = transport failure,
non-JSON content type, malformed response body, classified protocol
error) together with every constructor site in lib.rs
(Standard, NotJson, NotW3C) and the conversions the lib.rs question
marks demand (hyper transport errors, URL parse errors, JSON parse
errors).  Payloads of the externally sourced variants are abstracted to
strings. -/
inductive CmdError where
  | standard (e : WebDriverError)
  | badUrl (e : String)
  | failed (e : String)
  | notJson (body : String)
  | jsonParse (e : String)
  | notW3C (j : Json)

/-- Modelled from the spec: error::NewSessionError also lives in the
missing src/error.rs; the variants are those constructed in lib.rs
(BadWebdriverUrl, NotW3C, SessionNotCreated), matching the spec taxonomy
for session creation. -/
inductive NewSessionError where
  | badWebdriverUrl (e : String)
  | notW3C (j : Json)
  | sessionNotCreated (e : WebDriverError)

/-- The error classifier of issue_wd_cmd (lib.rs lines 441-498): a match
on the HTTP status code, then on the "error" string of the body.  Every
catch-all arm of the source is an unreachable macro invocation, i.e. a
panic, modelled here as `none`. -/
def classifyError (status : Nat) (error : String) : Option ErrorStatus :=
  match status with
  | 400 =>
    match error with
    | "element click intercepted" => some .elementClickIntercepted
    | "element not selectable" => some .elementNotSelectable
    | "element not interactable" => some .elementNotInteractable
    | "insecure certificate" => some .insecureCertificate
    | "invalid argument" => some .invalidArgument
    | "invalid cookie domain" => some .invalidCookieDomain
    | "invalid coordinates" => some .invalidCoordinates
    | "invalid element state" => some .invalidElementState
    | "invalid selector" => some .invalidSelector
    | "no such alert" => some .noSuchAlert
    | "no such frame" => some .noSuchFrame
    | "no such window" => some .noSuchWindow
    | "stale element reference" => some .staleElementReference
    | _ => none
  | 404 =>
    match error with
    | "unknown command" => some .unknownCommand
    | "no such cookie" => some .noSuchCookie
    | "invalid session id" => some .invalidSessionId
    | "no such element" => some .noSuchElement
    | _ => none
  | 500 =>
    match error with
    | "javascript error" => some .javascriptError
    | "move target out of bounds" => some .moveTargetOutOfBounds
    | "session not created" => some .sessionNotCreated
    | "unable to set cookie" => some .unableToSetCookie
    | "unable to capture screen" => some .unableToCaptureScreen
    | "unexpected alert open" => some .unexpectedAlertOpen
    | "unknown error" => some .unknownError
    | "unsupported operation" => some .unsupportedOperation
    | _ => none
  | 408 =>
    match error with
    | "timeout" => some .timeout
    | "script timeout" => some .scriptTimeout
    | _ => none
  | 405 =>
    match error with
    | "unknown method" => some .unknownMethod
    | _ => none
  | _ => none

/-- The error-envelope handling of issue_wd_cmd (lib.rs lines 428-501),
run on a non-success status with the unwrapped body: reject non-objects,
strip the oversized "screen" field, require string "error" and "message"
fields, then classify.  `none` models the unreachable-macro panic taken
when classification finds no table entry. -/
def handleErrorBody (status : Nat) (body : Json) : Option CmdError :=
  match body with
  | .obj kvs =>
    let kvs := removeKey kvs "screen"
    match lookupKey kvs "error", lookupKey kvs "message" with
    | some (.str err), some (.str msg) =>
      match classifyError status err with
      | some k => some (.standard ⟨k, msg⟩)
      | none => none
    | _, _ => some (.notW3C (.obj kvs))
  | b => some (.notW3C b)

/-- The closed classification table of spec section 4.4, written from the
words of the spec (the spec names each code with hyphens; the wire code
strings it keys on are the same words separated by spaces).  This is the
spec-side definition which the source-side classifyError is compared
against. -/
def specTable : List (Nat × String × ErrorStatus) :=
  [ (400, "element click intercepted", .elementClickIntercepted),
    (400, "element not selectable", .elementNotSelectable),
    (400, "element not interactable", .elementNotInteractable),
    (400, "insecure certificate", .insecureCertificate),
    (400, "invalid argument", .invalidArgument),
    (400, "invalid cookie domain", .invalidCookieDomain),
    (400, "invalid coordinates", .invalidCoordinates),
    (400, "invalid element state", .invalidElementState),
    (400, "invalid selector", .invalidSelector),
    (400, "no such alert", .noSuchAlert),
    (400, "no such frame", .noSuchFrame),
    (400, "no such window", .noSuchWindow),
    (400, "stale element reference", .staleElementReference),
    (404, "unknown command", .unknownCommand),
    (404, "no such cookie", .noSuchCookie),
    (404, "invalid session id", .invalidSessionId),
    (404, "no such element", .noSuchElement),
    (500, "javascript error", .javascriptError),
    (500, "move target out of bounds", .moveTargetOutOfBounds),
    (500, "session not created", .sessionNotCreated),
    (500, "unable to set cookie", .unableToSetCookie),
    (500, "unable to capture screen", .unableToCaptureScreen),
    (500, "unexpected alert open", .unexpectedAlertOpen),
    (500, "unknown error", .unknownError),
    (500, "unsupported operation", .unsupportedOperation),
    (408, "timeout", .timeout),
    (408, "script timeout", .scriptTimeout),
    (405, "unknown method", .unknownMethod) ]

/-- A content type, mirroring hyper Mime with its parameter list dropped:
the source only ever matches the top-level and sub-level parts and
ignores the parameters. -/
structure Mime where
  top : String
  sub : String

/-- The content-type test of issue_wd_cmd line 392: the Mime pattern
application/json with arbitrary parameters. -/
def isJsonMime (m : Mime) : Bool :=
  m.top == "application" && m.sub == "json"

/-- An HTTP response as issue_wd_cmd observes it: status code, optional
content-type header, the raw body text, and the result of handing the
body to the external JSON parser (`none` when the text is not JSON).
The transport itself is an excluded collaborator. -/
structure HttpResponse where
  status : Nat
  contentType : Option Mime
  raw : String
  parsed : Option Json

/-- hyper StatusCode::is_success: the 2xx class. -/
def statusIsSuccess (s : Nat) : Bool :=
  200 ≤ s && s < 300

/-- The response half of issue_wd_cmd (lib.rs lines 383-502): the
content-type check (the expect on a missing header panics: `none`), the
NotJson raw-body error, JSON parsing, envelope unwrapping (the "value"
field, except for legacy-dialect session creation), the success return,
and error-envelope classification via handleErrorBody. -/
def processResponse (legacy isNewSession : Bool) (res : HttpResponse) :
    Option (Except CmdError Json) :=
  match res.contentType with
  | none => none
  | some ct =>
    if ¬ isJsonMime ct then some (.error (.notJson res.raw)) else
    match res.parsed with
    | none => some (.error (.jsonParse res.raw))
    | some top =>
      let unwrapped : Except CmdError Json :=
        match top with
        | .obj v =>
          if ¬ legacy || ¬ isNewSession then
            match lookupKey v "value" with
            | some inner => .ok inner
            | none => .error (.notW3C (.obj v))
          else .ok (.obj v)
        | v => .error (.notW3C v)
      match unwrapped with
      | .error e => some (.error e)
      | .ok body =>
        if statusIsSuccess res.status then some (.ok body) else
        match handleErrorBody res.status body with
        | some e => some (.error e)
        | none => none

/-- The Client state (lib.rs lines 115-121).  The hyper connection
handle is an excluded collaborator and the base URL is kept as a plain
string. -/
structure Client where
  wdb : String
  session : Option String
  legacy : Bool
  ua : Option String

/-- Client::set_ua. -/
def Client.set_ua (c : Client) (s : String) : Client :=
  { c with ua := some s }

/-- Client::init (lib.rs lines 136-174), parametrised by the outcome of
the NewSession command (the oracle `r`).  It sets the legacy flag when
the parameters are the legacy shape, extracts "sessionId" on success,
converts NotW3C / NotJson command errors and the server-reported
session-not-created status, and panics (`none`) on every other command
error via the catch-all panic macro on line 171. -/
def Client.init (c : Client) (legacyParams : Bool) (r : Except CmdError Json) :
    Option (Client × Except NewSessionError Unit) :=
  let c := if legacyParams then { c with legacy := true } else c
  match r with
  | .ok (.obj v) =>
    match lookupKey v "sessionId" with
    | some (.str s) => some ({ c with session := some s }, .ok ())
    | some _ => some (c, .error (.notW3C (.obj v)))
    | none => some (c, .error (.notW3C (.obj v)))
  | .ok v => some (c, .error (.notW3C v))
  | .error (.notW3C v) => some (c, .error (.notW3C v))
  | .error (.notJson s) => some (c, .error (.notW3C (.str s)))
  | .error (.standard e) =>
    if e.error = ErrorStatus.sessionNotCreated then
      some (c, .error (.sessionNotCreated e))
    else none
  | .error _ => none

/-- The chromedriver marker string of lib.rs line 224, built without a
literal apostrophe character. -/
def chromedriverMsg : String :=
  "cannot find dict " ++ String.singleton (Char.ofNat 39) ++
    "desiredCapabilities" ++ String.singleton (Char.ofNat 39)

/-- The legacy-fallback test of Client::new (lib.rs lines 215-231): a
string body starting with "Missing Command Parameter" (ghostdriver) or
an object body whose "message" string contains the chromedriver marker. -/
def legacyFallbackMatches (j : Json) : Bool :=
  match j with
  | .str err => strStartsWith err "Missing Command Parameter"
  | .obj o =>
    containsKey o "message" &&
      (((lookupKey o "message").bind Json.asString).map
        (fun s => strContains s chromedriverMsg)).getD false
  | _ => false

/-- Client::new (lib.rs lines 178-249), parametrised by the parse result
of the server URL (`none` models an unparsable URL) and by the outcomes
of the first (spec-dialect) and second (legacy-dialect) NewSession
commands.  `none` in the result models a panic inside init. -/
def Client.new (wdbParse : Option String) (r1 r2 : Except CmdError Json) :
    Option (Except NewSessionError Client) :=
  match wdbParse with
  | none => some (.error (.badWebdriverUrl "bad webdriver url"))
  | some wdb =>
    let c0 : Client := { wdb := wdb, session := none, legacy := false, ua := none }
    match Client.init c0 false r1 with
    | none => none
    | some (c, .ok ()) => some (.ok c)
    | some (c, .error (.notW3C json)) =>
      if legacyFallbackMatches json then
        match Client.init c true r2 with
        | none => none
        | some (c2, .ok ()) => some (.ok c2)
        | some (_, .error e) => some (.error e)
      else some (.error (.notW3C json))
    | some (_, .error e) => some (.error e)

/-- The command descriptors routed by endpoint_for, i.e. exactly the
WebDriverCommand variants lib.rs constructs; payloads that do not feed
into the endpoint string are dropped. -/
inductive Cmd where
  | newSession (legacyParams : Bool)
  | deleteSession
  | get (url : String)
  | getCurrentUrl
  | getPageSource
  | findElement
  | getCookies
  | executeScript
  | getElementProperty (id prop : String)
  | getElementAttribute (id attr : String)
  | findElementElement (parentId : String)
  | elementClick (id : String)
  | getElementText (id : String)
  | elementSendKeys (id : String)

/-- Client::endpoint_for (lib.rs lines 259-300).  URL joining against
the base is modelled as string concatenation (hyper Url::join is an
excluded collaborator; every path used here is relative to the session
base).  `none` models the unwrap of an absent session id on line 264;
the two unreachable-macro arms of the inner match are also `none`, but
they sit under the branch that already handled those commands. -/
def Client.endpoint_for (c : Client) (cmd : Cmd) : Option String :=
  match cmd with
  | .newSession _ => some (c.wdb ++ "/session")
  | cmd =>
    match c.session with
    | none => none
    | some session =>
      match cmd with
      | .deleteSession => some (c.wdb ++ "/session/" ++ session)
      | cmd =>
        let base := c.wdb ++ "/session/" ++ session ++ "/"
        match cmd with
        | .newSession _ => none
        | .deleteSession => none
        | .get _ => some (base ++ "url")
        | .getCurrentUrl => some (base ++ "url")
        | .getPageSource => some (base ++ "source")
        | .findElement => some (base ++ "element")
        | .getCookies => some (base ++ "cookie")
        | .executeScript =>
          some (base ++ (if c.legacy then "execute" else "execute/sync"))
        | .getElementProperty id p =>
          some (base ++ "element/" ++ id ++ "/property/" ++ p)
        | .getElementAttribute id a =>
          some (base ++ "element/" ++ id ++ "/attribute/" ++ a)
        | .findElementElement p =>
          some (base ++ "element/" ++ p ++ "/element")
        | .elementClick id => some (base ++ "element/" ++ id ++ "/click")
        | .getElementText id => some (base ++ "element/" ++ id ++ "/text")
        | .elementSendKeys id => some (base ++ "element/" ++ id ++ "/value")

/-- The Drop implementation for Client (lib.rs lines 825-831),
parametrised by the outcome of the DeleteSession command.  The result
`some issued` means drop returned normally and `issued` records whether
a delete was sent; `none` models the unwrap that panics when the delete
fails. -/
def dropClient (session : Option String) (r : Except CmdError Json) :
    Option Bool :=
  match session with
  | none => some false
  | some _ =>
    match r with
    | .ok _ => some true
    | .error _ => none

/-- webdriver::common::ELEMENT_KEY, the reserved W3C element key. -/
def ELEMENT_KEY : String := "element-6066-11e4-a52e-4f735466cecf"

/-- Serialization of a webdriver::common::WebElement (ToJson): an object
with the reserved W3C key mapped to the element id. -/
def webElementToJson (id : String) : Json :=
  .obj [(ELEMENT_KEY, .str id)]

/-- Client::fixup_elements (lib.rs lines 800-812): under the legacy
dialect, rewrite the reserved W3C element key of every object argument
to the literal key ELEMENT. -/
def fixup_elements (legacy : Bool) (args : List Json) : List Json :=
  if legacy then
    args.map fun arg =>
      match arg with
      | .obj o =>
        match lookupKey o ELEMENT_KEY with
        | some wei => .obj (insertKey (removeKey o ELEMENT_KEY) "ELEMENT" wei)
        | none => .obj o
      | a => a
  else args

/-- The script-argument list Form::set_by_name transmits (lib.rs lines
937-943): the located field element and the value, passed through
fixup_elements. -/
def set_by_name_args (legacy : Bool) (fieldId value : String) : List Json :=
  fixup_elements legacy [webElementToJson fieldId, Json.str value]

/-- The script-argument list Form::submit_direct transmits (lib.rs lines
1004-1009): the form element, passed through fixup_elements. -/
def submit_direct_args (legacy : Bool) (formId : String) : List Json :=
  fixup_elements legacy [webElementToJson formId]

/-- The script-argument list Form::submit_sneaky transmits for its
hidden-input-injection script (lib.rs lines 1039-1051): the form
element, the field name and the value.  The source builds this list and
hands it to ExecuteScript without calling fixup_elements. -/
def submit_sneaky_args (formId field value : String) : List Json :=
  [webElementToJson formId, Json.str field, Json.str value]

/-- Element::click response handling (lib.rs lines 890-901): null or an
empty object is success, anything else is a NotW3C error. -/
def click_outcome (r : Json) : Except CmdError Unit :=
  if r.isNull then .ok ()
  else if ((r.asObject).map List.isEmpty).getD false then .ok ()
  else .error (.notW3C r)

/-- Form::submit_with response handling (lib.rs lines 970-979), the same
null / empty-object test as Element::click. -/
def submit_with_outcome (r : Json) : Except CmdError Unit :=
  if r.isNull then .ok ()
  else if ((r.asObject).map List.isEmpty).getD false then .ok ()
  else .error (.notW3C r)

/-- Form::submit_direct response handling (lib.rs lines 1018-1025). -/
def submit_direct_outcome (r : Json) : Except CmdError Unit :=
  if r.isNull then .ok ()
  else if ((r.asObject).map List.isEmpty).getD false then .ok ()
  else .error (.notW3C r)

/-- Form::submit_sneaky response test (lib.rs lines 1055-1062): on null
or an empty object it delegates to submit_direct, otherwise it returns a
NotW3C error. -/
def submit_sneaky_delegates (r : Json) : Bool :=
  r.isNull || ((r.asObject).map List.isEmpty).getD false

/-- Element::prop (lib.rs lines 853-860), parametrised by the outcome of
the GetElementProperty command: a string is Some, null is None, anything
else is a NotW3C error. -/
def prop_outcome (r : Except CmdError Json) : Except CmdError (Option String) :=
  match r with
  | .error e => .error e
  | .ok (.str v) => .ok (some v)
  | .ok .null => .ok none
  | .ok v => .error (.notW3C v)

/-- The property name Element::html reads (lib.rs line 883). -/
def htmlPropName (inner : Bool) : String :=
  if inner then "innerHTML" else "outerHTML"

/-- Element::html (lib.rs lines 882-885): the prop result mapped through
an unconditional unwrap of the inner Option.  The unwrap of None (the
server returned null for the property) panics: `none`. -/
def html_outcome (r : Except CmdError Json) : Option (Except CmdError String) :=
  match prop_outcome r with
  | .error e => some (.error e)
  | .ok (some s) => some (.ok s)
  | .ok none => none

/-- The remote browser state the conforming-server model tracks: its
current URL.  A successful Get navigates to the requested URL and a
successful GetCurrentUrl reports this field; a failed command leaves the
state unchanged. -/
structure Browser where
  url : String

/-- A URL is treated as absolute when it carries a scheme separator. -/
def isAbsoluteUrl (s : String) : Bool :=
  strContains s "://"

/-- Everything up to and including the last slash of a URL string. -/
def dropLastSegment (s : String) : String :=
  String.mk (List.reverse (List.dropWhile (fun c => c ≠ '/') (List.reverse s.toList)))

/-- Modelled from the spec: hyper Url::join is an excluded collaborator;
per spec section 8 a navigation target is resolved against the prior
current URL, so an absolute reference replaces the base and a relative
reference replaces the last path segment of the base. -/
def joinUrl (base rel : String) : String :=
  if isAbsoluteUrl rel then rel else dropLastSegment base ++ rel

/-- The failure oracle for one Client::goto call: goto first issues
GetCurrentUrl and then Get, either of which the server or transport may
fail. -/
structure GotoOracle where
  curFail : Option CmdError
  getFail : Option CmdError

/-- Client::current_url (lib.rs lines 514-521) under the
conforming-server model: on success the server reports the browser
state. -/
def current_url (b : Browser) (fail : Option CmdError) : Except CmdError String :=
  match fail with
  | some e => .error e
  | none => .ok b.url

/-- Client::goto (lib.rs lines 505-511): read the current URL, resolve
the target against it, issue Get; a successful Get navigates the
browser. -/
def goto (b : Browser) (target : String) (o : GotoOracle) :
    Except CmdError Browser :=
  match current_url b o.curFail with
  | .error e => .error e
  | .ok cur =>
    let u := joinUrl cur target
    match o.getFail with
    | some e => .error e
    | none => .ok { url := u }

/-- A webdriver::response::Cookie as raw_client_for builds it (lib.rs
lines 648-662). -/
structure WDCookie where
  name : String
  value : String
  path : Option String
  domain : Option String
  expiry : Option Nat
  secure : Bool
  httpOnly : Bool

/-- The val_of helper of raw_client_for (lib.rs lines 612-621): an
absent or null field is Null, everything else is a value. -/
def nullableOf (kvs : List (String × Json)) (key : String) : Option Json :=
  match lookupKey kvs key with
  | none => none
  | some v => if v.isNull then none else some v

/-- The path / domain conversions of raw_client_for (lib.rs lines
623-632): a string passes through and any other present value hits the
unimplemented macro, a panic (`none` outside). -/
def asNullableString (v : Option Json) : Option (Option String) :=
  match v with
  | none => some none
  | some (.str s) => some (some s)
  | some _ => none

/-- Rust `as u64` on an i64, the wrapping cast of lib.rs line 637. -/
def i64AsU64 (n : Int) : Nat :=
  (n % ((2 : Int) ^ 64)).toNat

/-- The expiry conversion of raw_client_for (lib.rs lines 633-644):
unsigned, signed or float seconds become an epoch integer (the float
cast saturates, on the abstracted integer payload this clamps), any
other present value hits the unimplemented macro, a panic. -/
def asNullableExpiry (v : Option Json) : Option (Option Nat) :=
  match v with
  | none => some none
  | some (.u64 n) => some (some n)
  | some (.i64 n) => some (some (i64AsU64 n))
  | some (.f64 n) => some (some (Int.toNat (min n ((2 : Int) ^ 64 - 1))))
  | some _ => none

/-- Outcome of parsing one cookie entry in the loop of raw_client_for
(lib.rs lines 594-667): a panic through the unimplemented macro, a
malformed entry (the all_ok flag drops and the loop breaks), or a
cookie. -/
inductive EntryParse where
  | diverge
  | malformed
  | ok (c : WDCookie)

/-- One iteration of the cookie loop of raw_client_for (lib.rs lines
594-667): non-objects and entries without string "name" and "value" are
malformed; path, domain and expiry convert as above; "secure" and
"httpOnly" default to false. -/
def parseCookieEntry (j : Json) : EntryParse :=
  match j with
  | .obj kvs =>
    if containsKey kvs "name" && containsKey kvs "value" then
      match lookupKey kvs "name", lookupKey kvs "value" with
      | some (.str n), some (.str v) =>
        match asNullableString (nullableOf kvs "path") with
        | none => .diverge
        | some path =>
          match asNullableString (nullableOf kvs "domain") with
          | none => .diverge
          | some domain =>
            match asNullableExpiry (nullableOf kvs "expiry") with
            | none => .diverge
            | some expiry =>
              .ok { name := n, value := v, path := path, domain := domain,
                    expiry := expiry,
                    secure := (((lookupKey kvs "secure").bind Json.asBool).getD false),
                    httpOnly := (((lookupKey kvs "httpOnly").bind Json.asBool).getD false) }
      | _, _ => .malformed
    else .malformed
  | _ => .malformed

/-- The whole cookie loop: the outer `none` is a panic, the inner `none`
is the all_ok = false exit that rejects the whole jar. -/
def buildJar : List Json → Option (Option (List WDCookie))
  | [] => some (some [])
  | j :: rest =>
    match parseCookieEntry j with
    | .diverge => none
    | .malformed => some none
    | .ok c =>
      match buildJar rest with
      | none => none
      | some none => some none
      | some (some js) => some (some (c :: js))

/-- The unsent request raw_client_for returns: method, resolved URL, the
cookie jar destined for the Cookie header, and the user-agent override.
The hyper RequestBuilder and the cookie-header serializer are excluded
collaborators. -/
structure RawRequest where
  method : String
  url : String
  jar : List WDCookie
  ua : Option String

/-- The failure oracle for one raw_client_for call, in issue order: the
initial GetCurrentUrl, the probe navigation, the GetCookies outcome, and
the restoring navigation (only one of the two textual goto-back call
sites runs in any execution). -/
structure RawOracle where
  curFail : Option CmdError
  probe : GotoOracle
  cookies : Except CmdError Json
  back : GotoOracle

/-- Client::raw_client_for (lib.rs lines 561-679): record the current
URL, resolve the target and the probe URL, navigate to the probe, fetch
cookies, navigate back (on fetch failure the back-navigation runs first
and its own failure is propagated by the question mark operator), check
the cookie array, build the jar, and return the unsent request.  The
outer `none` is a panic inside the cookie conversions. -/
def raw_client_for (cl : Client) (b : Browser) (method target : String)
    (o : RawOracle) : Option (Browser × Except CmdError RawRequest) :=
  match current_url b o.curFail with
  | .error e => some (b, .error e)
  | .ok old_url =>
    let url := joinUrl old_url target
    let cookie_url := joinUrl url "please_give_me_your_cookies"
    match goto b cookie_url o.probe with
    | .error e => some (b, .error e)
    | .ok b1 =>
      match o.cookies with
      | .error e =>
        match goto b1 old_url o.back with
        | .error e2 => some (b1, .error e2)
        | .ok b2 => some (b2, .error e)
      | .ok cookies =>
        match goto b1 old_url o.back with
        | .error e2 => some (b1, .error e2)
        | .ok b2 =>
          match cookies with
          | .arr cs =>
            match buildJar cs with
            | none => none
            | some none => some (b2, .error (.notW3C (.arr cs)))
            | some (some jar) =>
              some (b2, .ok { method := method, url := url, jar := jar, ua := cl.ua })
          | v => some (b2, .error (.notW3C v))

/-- C5 counterexample: the claim says a failed session delete on drop is
swallowed and never surfaced, but with a session id held and a failing
DeleteSession the Drop implementation unwraps the error and panics
(modelled as `none`), which is not a swallowed failure. -/
theorem c5_drop_failure_is_not_swallowed :
    dropClient (some "session-id") (.error (.failed "io error")) = none := rfl

/-- C5 (amended): whenever a session id is held, drop issues the
best-effort delete and discards a successful outcome; when no session id
is held no delete is issued; but a failed delete makes drop panic
through the unwrap instead of being swallowed. -/
theorem c5_drop_best_effort_delete :
    ∀ (s : String) (j : Json) (e : CmdError) (r : Except CmdError Json),
      dropClient none r = some false ∧
      dropClient (some s) (.ok j) = some true ∧
      dropClient (some s) (.error e) = none := by
  intro s j e r
  exact ⟨rfl, rfl, rfl⟩

/-- C6: under the legacy dialect, Form::submit_sneaky transmits its
hidden-input script argument list with the serialized form element still
keyed by the reserved W3C element key, because the source never passes
the list through fixup_elements; the sibling operations set_by_name and
submit_direct do rewrite the key to ELEMENT.  This evaluates the code at
the failing input and exhibits the divergence. -/
theorem c6_submit_sneaky_skips_element_key_rewrite :
    submit_sneaky_args "form-1" "extra" "val" =
      [Json.obj [(ELEMENT_KEY, Json.str "form-1")], Json.str "extra", Json.str "val"] ∧
    fixup_elements true [webElementToJson "form-1"] =
      [Json.obj [("ELEMENT", Json.str "form-1")]] ∧
    set_by_name_args true "field-1" "val" =
      [Json.obj [("ELEMENT", Json.str "field-1")], Json.str "val"] ∧
    submit_direct_args true "form-1" =
      [Json.obj [("ELEMENT", Json.str "form-1")]] :=
  ⟨rfl, rfl, rfl, rfl⟩

/-- C7: for click and every submit variant, a null or empty-object
unwrapped response is success and any other value, in particular any
non-empty object, is a NotW3C error; the submit variants test the
response exactly as Element::click does. -/
theorem c7_click_submit_success_iff_null_or_empty :
    ∀ r : Json,
      (click_outcome r = .ok () ↔ (r = .null ∨ r = .obj [])) ∧
      submit_with_outcome r = click_outcome r ∧
      submit_direct_outcome r = click_outcome r ∧
      (submit_sneaky_delegates r = true ↔ (r = .null ∨ r = .obj [])) ∧
      (click_outcome r ≠ .ok () → click_outcome r = .error (.notW3C r)) := by
  intro r
  cases r with
  | obj kvs =>
    cases kvs <;>
      simp [click_outcome, submit_with_outcome, submit_direct_outcome,
        submit_sneaky_delegates, Json.isNull, Json.asObject]
  | _ =>
    simp [click_outcome, submit_with_outcome, submit_direct_outcome,
      submit_sneaky_delegates, Json.isNull, Json.asObject]

/-- C7 witness: a non-empty object response is an error, and both null
and the empty object are success, at concrete inputs. -/
theorem c7_witness :
    click_outcome (.obj [("a", Json.null)]) =
      .error (.notW3C (.obj [("a", Json.null)])) ∧
    click_outcome .null = .ok () ∧ click_outcome (.obj []) = .ok () :=
  ⟨(c7_click_submit_success_iff_null_or_empty (.obj [("a", Json.null)])).2.2.2.2
      (fun h => nomatch h),
    (c7_click_submit_success_iff_null_or_empty .null).1.mpr (Or.inl rfl),
    (c7_click_submit_success_iff_null_or_empty (.obj [])).1.mpr (Or.inr rfl)⟩

/-- C9: Element::html maps the property result through an unconditional
unwrap, so a successful lookup that yields null (absent property) panics
(none) instead of returning a result, while a string property and a
command error pass through; Element::prop itself returns None for null. -/
theorem c9_html_panics_on_null_property :
    ∀ (s : String) (e : CmdError),
      html_outcome (.ok Json.null) = none ∧
      html_outcome (.ok (Json.str s)) = some (.ok s) ∧
      html_outcome (.error e) = some (.error e) ∧
      prop_outcome (.ok Json.null) = .ok none ∧
      htmlPropName true = "innerHTML" ∧ htmlPropName false = "outerHTML" := by
  intro s e
  exact ⟨rfl, rfl, rfl, rfl, rfl, rfl⟩

/-- C8 counterexample: the claim says a response with no content type at
all also yields a raw-body error, but the source calls expect on the
missing header, which panics (none) before any body is read. -/
theorem c8_missing_content_type_is_not_an_error_result :
    processResponse false false
      { status := 200, contentType := none, raw := "hello", parsed := none } =
      none := rfl

/-- C8 (amended): for every issued command, if the response carries a
content type that is present but not application/json, the pipeline
returns a raw-body error holding the unparsed response text; a response
with no content type at all panics on the expect instead. -/
theorem c8_non_json_content_type_raw_body_error :
    ∀ (legacy isNew : Bool) (res : HttpResponse) (ct : Mime),
      res.contentType = some ct → isJsonMime ct = false →
      processResponse legacy isNew res = some (.error (.notJson res.raw)) := by
  intro legacy isNew res ct hct hm
  unfold processResponse
  rw [hct]
  simp [hm]

/-- C8 witness: a text/html response with a concrete body yields the
raw-body error carrying that body. -/
theorem c8_witness :
    processResponse false false
      { status := 200, contentType := some ⟨"text", "html"⟩, raw := "body text",
        parsed := none } =
      some (.error (.notJson "body text")) :=
  c8_non_json_content_type_raw_body_error false false _ ⟨"text", "html"⟩ rfl (by decide)

/-- C1 counterexample: the claim says every (status, error code) pair
outside the table is surfaced as an error result, but on a well-formed
error envelope whose code is out of table the classifier hits the
unreachable-macro arm and panics (none) instead of returning any error
result. -/
theorem c1_out_of_table_pair_panics :
    handleErrorBody 400
      (.obj [("error", .str "bogus code"), ("message", .str "m")]) = none := rfl

/-- C1 (amended): for every HTTP failure response whose unwrapped body
is an object with string error and message keys, the classifier maps
each in-table (status, code) pair to exactly the kind of the section 4.4
table and never maps an out-of-table pair to any existing kind; an
out-of-table pair makes the pipeline panic through the unreachable arm
(none) rather than produce an error result. -/
theorem c1_classifier_exactly_the_table :
    (∀ t ∈ specTable, classifyError t.1 t.2.1 = some t.2.2) ∧
    (∀ (s : Nat) (e : String) (k : ErrorStatus),
        classifyError s e = some k → (s, e, k) ∈ specTable) ∧
    (∀ (s : Nat) (err msg : String),
        handleErrorBody s (.obj [("error", .str err), ("message", .str msg)]) =
          (classifyError s err).map fun k => CmdError.standard ⟨k, msg⟩) := by
  refine ⟨by decide, ?_, ?_⟩
  · intro s e k h
    unfold classifyError at h
    split at h <;>
      first
        | exact Option.noConfusion h
        | (split at h <;>
            first
              | exact Option.noConfusion h
              | (injection h with hk; subst hk; decide))
  · intro s err msg
    cases hc : classifyError s err <;>
      simp [handleErrorBody, removeKey, lookupKey, hc]

/-- C1 witness: a concrete in-table pair classifies to its table kind,
is a member of the table, and flows through the error-envelope handling
to the classified protocol error. -/
theorem c1_witness :
    classifyError 404 "no such element" = some .noSuchElement ∧
    (404, "no such element", ErrorStatus.noSuchElement) ∈ specTable ∧
    handleErrorBody 404
      (.obj [("error", .str "no such element"), ("message", .str "nope")]) =
      some (.standard ⟨.noSuchElement, "nope"⟩) :=
  ⟨c1_classifier_exactly_the_table.1 (404, "no such element", .noSuchElement) (by decide),
    c1_classifier_exactly_the_table.2.1 404 "no such element" .noSuchElement (by decide),
    (c1_classifier_exactly_the_table.2.2 404 "no such element" "nope").trans rfl⟩

/-- The command-error shapes on which Client::init takes its catch-all
panic arm, written from the spec taxonomy for comparison with the
source: everything except a JSON outcome, a NotW3C error, a NotJson
error and a server-reported session-not-created. -/
def initDiverges (r : Except CmdError Json) : Bool :=
  match r with
  | .ok _ => false
  | .error (.notW3C _) => false
  | .error (.notJson _) => false
  | .error (.standard e) =>
    if e.error = ErrorStatus.sessionNotCreated then false else true
  | .error _ => true

/-- Helper: init returns (rather than panics) exactly on the
non-diverging command outcomes. -/
theorem init_none_iff (c : Client) (p : Bool) (r : Except CmdError Json) :
    Client.init c p r = none ↔ initDiverges r = true := by
  unfold Client.init initDiverges
  cases r with
  | ok v =>
    cases v <;> simp
    split <;> simp
  | error e =>
    cases e with
    | standard we => by_cases h : we.error = ErrorStatus.sessionNotCreated <;> simp [h]
    | _ => simp

/-- C2 counterexample: a transport failure during session creation does
not produce a session id nor a classified SessionCreationError; it makes
init hit its catch-all panic arm (none) — a third outcome. -/
theorem c2_transport_failure_is_a_third_outcome :
    Client.new (some "http://localhost:4444")
      (.error (.failed "connection refused")) (.ok Json.null) = none := rfl

/-- C2 (amended): session creation returns either a session id or a
classified SessionCreationError for every server JSON response and for
command errors of the NotW3C, NotJson and server-reported
session-not-created shapes, in both dialects; but for a transport
failure, a URL or JSON conversion failure, or any other classified
protocol error, init panics through its catch-all arm — a third
outcome the claim excludes. -/
theorem c2_session_creation_outcomes :
    (∀ (c : Client) (p : Bool) (r : Except CmdError Json),
        Client.init c p r = none ↔ initDiverges r = true) ∧
    (∀ (w : String) (r1 r2 : Except CmdError Json),
        initDiverges r1 = false → initDiverges r2 = false →
        (Client.new (some w) r1 r2).isSome = true) := by
  refine ⟨init_none_iff, ?_⟩
  intro w r1 r2 h1 h2
  unfold Client.new
  dsimp only
  have hs1 : Client.init { wdb := w, session := none, legacy := false, ua := none }
      false r1 ≠ none := by
    rw [Ne, init_none_iff, h1]
    simp
  cases hi1 : Client.init { wdb := w, session := none, legacy := false, ua := none }
      false r1 with
  | none => exact absurd hi1 hs1
  | some p1 =>
    obtain ⟨c1, res1⟩ := p1
    cases res1 with
    | ok u => cases u; simp
    | error e1 =>
      cases e1 with
      | notW3C j =>
        by_cases hm : legacyFallbackMatches j
        · have hs2 : Client.init c1 true r2 ≠ none := by
            rw [Ne, init_none_iff, h2]
            simp
          simp only [hm, if_true]
          cases hi2 : Client.init c1 true r2 with
          | none => exact absurd hi2 hs2
          | some p2 =>
            obtain ⟨c2, res2⟩ := p2
            cases res2 <;> simp
        · simp [hm]
      | _ => simp

/-- C2 witness: with a conforming spec-dialect response the creation
returns, and init never returns none on such a response. -/
theorem c2_witness :
    (¬ Client.init { wdb := "w", session := none, legacy := false, ua := none } false
        (.ok (.obj [("sessionId", Json.str "abc")])) = none) ∧
    (Client.new (some "w") (.ok (.obj [("sessionId", Json.str "abc")]))
        (.ok Json.null)).isSome = true :=
  ⟨fun h => by
      have := (c2_session_creation_outcomes.1 _ false _).mp h
      exact absurd this (by decide),
    c2_session_creation_outcomes.2 "w" _ _ rfl rfl⟩

/-- C3: after a non-conforming spec-dialect session-creation response,
Client::new retries with the legacy capability shape exactly when the
response body is a string starting with "Missing Command Parameter" or
an object whose "message" string contains the chromedriver marker; any
other non-conforming shape is terminal with no retry (the second
NewSession outcome has no influence on the result), and on a retry the
result is exactly the legacy init outcome. -/
theorem c3_legacy_fallback_condition :
    ∀ (w : String) (r1 r2 : Except CmdError Json) (c1 : Client) (j : Json),
      Client.init { wdb := w, session := none, legacy := false, ua := none }
          false r1 = some (c1, .error (.notW3C j)) →
      ((legacyFallbackMatches j = true ↔
          (∃ s, j = Json.str s ∧ strStartsWith s "Missing Command Parameter" = true) ∨
          (∃ o ms, j = Json.obj o ∧
            (lookupKey o "message").bind Json.asString = some ms ∧
            strContains ms chromedriverMsg = true)) ∧
        (legacyFallbackMatches j = false →
          Client.new (some w) r1 r2 = some (.error (.notW3C j))) ∧
        (legacyFallbackMatches j = true →
          Client.new (some w) r1 r2 =
            (Client.init c1 true r2).map fun p =>
              match p.2 with
              | .ok _ => .ok p.1
              | .error e => .error e)) := by
  intro w r1 r2 c1 j h
  refine ⟨?_, ?_, ?_⟩
  · cases j with
    | str s => simp [legacyFallbackMatches]
    | obj o =>
      simp only [legacyFallbackMatches, containsKey]
      cases hm : lookupKey o "message" with
      | none => simp [hm]
      | some m => cases m <;> simp [hm, Json.asString]
    | _ => simp [legacyFallbackMatches]
  · intro hm
    unfold Client.new
    dsimp only
    rw [h]
    simp [hm]
  · intro hm
    unfold Client.new
    dsimp only
    rw [h]
    simp only [hm, if_true]
    cases hi2 : Client.init c1 true r2 with
    | none => simp
    | some p2 =>
      obtain ⟨c2, res2⟩ := p2
      cases res2 <;> simp

/-- C3 witness: a ghostdriver-style string response triggers the legacy
retry and the retry outcome is the legacy init outcome; at this input
the retry succeeds with the legacy session. -/
theorem c3_witness :
    Client.new (some "w")
        (.error (.notW3C (.str "Missing Command Parameter - blah")))
        (.ok (.obj [("sessionId", Json.str "abc")])) =
      (Client.init { wdb := "w", session := none, legacy := false, ua := none } true
          (.ok (.obj [("sessionId", Json.str "abc")]))).map (fun p =>
        match p.2 with
        | .ok _ => .ok p.1
        | .error e => .error e) :=
  (c3_legacy_fallback_condition "w"
      (.error (.notW3C (.str "Missing Command Parameter - blah")))
      (.ok (.obj [("sessionId", Json.str "abc")])) _ _ rfl).2.2 (by decide)

/-- C4 counterexample: when the cookie fetch fails and the restoring
navigation itself fails, the question-mark operator propagates the
back-navigation error instead of the original cookie-fetch error, and
the session is left at the probe URL, so neither the propagated error
nor the final URL is what the claim states. -/
theorem c4_failed_restore_loses_error_and_url :
    raw_client_for { wdb := "w", session := some "s", legacy := false, ua := none }
      { url := "http://host/a/start" } "GET" "http://host/a/target"
      { curFail := none, probe := ⟨none, none⟩,
        cookies := .error (.failed "cookie fetch failed"),
        back := ⟨none, some (.failed "back navigation failed")⟩ } =
      some ({ url := "http://host/a/please_give_me_your_cookies" },
        .error (.failed "back navigation failed")) := rfl

/-- C4 (amended): if the cookie fetch fails after navigating to the
probe URL, the client first attempts to navigate back to the originally
recorded URL; when that back-navigation succeeds the original
cookie-fetch error is propagated and the current URL after the call
equals the current URL before the call, but when the back-navigation
itself fails its error is propagated instead of the original one and the
URL is left at the probe URL. -/
theorem c4_restore_first_then_propagate :
    ∀ (cl : Client) (b : Browser) (method target : String) (e : CmdError),
      isAbsoluteUrl b.url = true →
      raw_client_for cl b method target
        { curFail := none, probe := ⟨none, none⟩, cookies := .error e,
          back := ⟨none, none⟩ } =
        some (b, .error e) := by
  intro cl b method target e habs
  simp [raw_client_for, goto, current_url, joinUrl, habs]

/-- C4 witness: at a concrete starting URL the fetch failure is
propagated unchanged and the browser ends where it began. -/
theorem c4_witness :
    raw_client_for { wdb := "w", session := some "s", legacy := false, ua := none }
      { url := "http://host/a/start" } "GET" "target"
      { curFail := none, probe := ⟨none, none⟩,
        cookies := .error (.failed "cookie fetch failed"),
        back := ⟨none, none⟩ } =
      some ({ url := "http://host/a/start" }, .error (.failed "cookie fetch failed")) :=
  c4_restore_first_then_propagate _ _ _ _ _ (by decide)

/-- Helper: a successful init always stores a session id. -/
theorem init_ok_session (c : Client) (p : Bool) (r : Except CmdError Json)
    (c2 : Client) (u : Unit) (h : Client.init c p r = some (c2, .ok u)) :
    c2.session.isSome = true := by
  unfold Client.init at h
  cases r with
  | ok v =>
    cases v <;> simp at h
    case obj kvs =>
      cases hk : lookupKey kvs "sessionId" with
      | none => rw [hk] at h; simp at h
      | some sid =>
        cases sid <;> rw [hk] at h <;> simp at h
        case str s =>
          rw [← h]
          rfl
  | error e => cases e <;> simp at h

/-- Helper: with a session id present, endpoint resolution never hits
the session unwrap. -/
theorem endpoint_for_isSome (c : Client) (s : String) (hs : c.session = some s) :
    ∀ cmd : Cmd, (c.endpoint_for cmd).isSome = true := by
  intro cmd
  cases cmd <;> simp [Client.endpoint_for, hs]

/-- C10: every client a successful Client::new returns holds a session
id, the only public field mutator set_ua preserves it (no operation in
the source ever assigns the session field outside init), and therefore
endpoint resolution succeeds for every routed command on such a
client. -/
theorem c10_session_invariant :
    ∀ (w : String) (r1 r2 : Except CmdError Json) (c : Client),
      Client.new (some w) r1 r2 = some (.ok c) →
      c.session.isSome = true ∧
      (∀ ua, (c.set_ua ua).session = c.session) ∧
      (∀ cmd, (c.endpoint_for cmd).isSome = true) := by
  intro w r1 r2 c h
  have hs : c.session.isSome = true := by
    unfold Client.new at h
    dsimp only at h
    cases hi1 : Client.init { wdb := w, session := none, legacy := false, ua := none }
        false r1 with
    | none => rw [hi1] at h; exact absurd h (by simp)
    | some p1 =>
      obtain ⟨c1, res1⟩ := p1
      rw [hi1] at h
      cases res1 with
      | ok u =>
        cases u
        simp at h
        rw [← h]
        exact init_ok_session _ _ _ _ _ hi1
      | error e1 =>
        cases e1 with
        | notW3C j =>
          by_cases hm : legacyFallbackMatches j
          · simp only [hm, if_true] at h
            cases hi2 : Client.init c1 true r2 with
            | none => rw [hi2] at h; exact absurd h (by simp)
            | some p2 =>
              obtain ⟨c2, res2⟩ := p2
              rw [hi2] at h
              cases res2 with
              | ok u2 =>
                cases u2
                simp at h
                rw [← h]
                exact init_ok_session _ _ _ _ _ hi2
              | error e2 => simp at h
          · simp [hm] at h
        | _ => simp at h
  obtain ⟨s, hs'⟩ := Option.isSome_iff_exists.mp hs
  exact ⟨hs, fun ua => rfl, endpoint_for_isSome c s hs'⟩

/-- C10 witness: a concrete successful creation yields a client whose
session id is present and whose endpoints all resolve. -/
theorem c10_witness :
    ({ wdb := "w", session := some "abc", legacy := false, ua := none } : Client).session.isSome = true ∧
    (∀ cmd, (({ wdb := "w", session := some "abc", legacy := false, ua := none } : Client).endpoint_for cmd).isSome = true) := by
  have h := c10_session_invariant "w" (.ok (.obj [("sessionId", Json.str "abc")]))
    (.ok Json.null) { wdb := "w", session := some "abc", legacy := false, ua := none } rfl
  exact ⟨h.1, h.2.2⟩

end Fantoccini
